import Mathlib

/-!
Verification development for the WinterArc Telegram payment bot.

This file shallowly embeds the recipient-resolution and payment-confirmation
core of the repository in Lean 4 and proves properties about it.

Embedded source files:
* `src/utils/validation.js` — Joi validation schemas, the `isValid*` wrappers
  and `parseRecipient`.
* `src/controllers/botController.js` — `resolveRecipient`, the friend-lookup
  helpers, `handleAddFriend`, `handleRequest`, and the callback handlers
  (`pay_`, `decline_`, `confirm_pay_`, `cancel_payment`), together with the
  in-memory `pendingPayments` map.
* `src/services/auth0Service.js` — the user-directory lookups and
  `createPaymentRequest`.

Modelling conventions:
* JS strings are Lean `String`s (all relevant data is ASCII).
* JS numbers that can be `NaN` are modelled by the inductive `JsNum`
  (`nan` or an exact rational); the scenarios in the claims use exact
  decimal values, so rationals are faithful.
* Async external calls (Telegram sends, Auth0 queries, the ARC payment rail)
  are modelled as synchronous: sends are recorded in an output trace, the
  directory is explicit state, and the rail's success/failure is an oracle
  parameter.  A call to `arcService.sendUSDCPayment` is recorded in a
  `transfers` trace.
* Joi's `schema.validate(x)` returns a result object `{ error, value }` and
  does not throw on validation failure; it is therefore embedded as a total
  function returning a `JoiResult`.
-/

deriving instance DecidableEq for Except

/-! ## JavaScript string primitives -/

/-- The whitespace characters removed by `String.prototype.trim` that occur in
this code base (ASCII whitespace). -/
def isJsWhitespace (c : Char) : Bool :=
  c = ' ' || c = '\t' || c = '\n' || c = '\r'

/-- `String.prototype.trim`: drop ASCII whitespace from both ends. -/
def jsTrim (s : String) : String :=
  String.mk (((s.data.dropWhile isJsWhitespace).reverse.dropWhile isJsWhitespace).reverse)

/-- `String.prototype.startsWith`. -/
def jsStartsWith (s pre : String) : Bool :=
  pre.data.isPrefixOf s.data

/-- Numeric value of a list of decimal digit characters
(used for `parseInt` on a string that matched `/^\d+$/`). -/
def digitsToNat (l : List Char) : Nat :=
  l.foldl (fun n c => n * 10 + (c.toNat - 48)) 0

/-- `parseInt` applied to a string that consists only of decimal digits.
(JS `parseInt` loses precision above 2^53, which no claim exercises.) -/
def jsParseIntDigits (s : String) : Nat :=
  digitsToNat s.data

/-- JS number: either `NaN` or an exact numeric value. -/
inductive JsNum where
  | nan : JsNum
  | num : ℚ → JsNum
deriving DecidableEq, Repr

/-- Truthiness of a JS number: `NaN` and `0` are falsy. -/
def JsNum.isFalsy : JsNum → Bool
  | .nan => true
  | .num q => q = 0

/-- `parseFloat` restricted to the shapes this code produces
(`[+-]? digits [. digits]`, parsing the longest valid prefix); exponent
notation and leading whitespace never occur in the embedded call sites. -/
def jsParseFloat (s : String) : JsNum :=
  let (neg, cs) :=
    match s.data with
    | '-' :: rest => (true, rest)
    | '+' :: rest => (false, rest)
    | cs => (false, cs)
  let (ip, rest1) := cs.span Char.isDigit
  let mk : ℚ → JsNum := fun q => .num (if neg then -q else q)
  match rest1 with
  | '.' :: rest2 =>
    let (fp, _) := rest2.span Char.isDigit
    if ip.isEmpty && fp.isEmpty then .nan
    else mk ((digitsToNat ip : ℚ) + (digitsToNat fp : ℚ) / ((10 : ℚ) ^ fp.length))
  | _ => if ip.isEmpty then .nan else mk (digitsToNat ip)

/-- Decimal rendering of a natural number (`Number.prototype.toString`),
defined with explicit fuel so that its digit-only property is provable. -/
def natDigitsAux : Nat → Nat → List Char
  | 0, _ => []
  | fuel + 1, n =>
    if n < 10 then [Char.ofNat (n + 48)]
    else natDigitsAux fuel (n / 10) ++ [Char.ofNat (n % 10 + 48)]

/-- `Number.prototype.toString` for the naturals stored as Telegram ids. -/
def natToString (n : Nat) : String :=
  String.mk (natDigitsAux (n + 1) n)

/-- `Char` uppercasing for the ASCII range. -/
def jsCharToUpper (c : Char) : Char :=
  if 'a' ≤ c && c ≤ 'z' then Char.ofNat (c.toNat - 32) else c

/-- `String.prototype.toUpperCase` (ASCII). -/
def jsToUpper (s : String) : String :=
  String.mk (s.data.map jsCharToUpper)

/-- One step of `String.prototype.split(sep)`: returns the first chunk and the
remaining chunks of the tail. -/
def splitOnCharAux (sep : Char) : List Char → List Char × List (List Char)
  | [] => ([], [])
  | c :: rest =>
    let (cur, acc) := splitOnCharAux sep rest
    if c = sep then ([], cur :: acc) else (c :: cur, acc)

/-- `String.prototype.split(sep)` for a one-character separator. -/
def jsSplit (s : String) (sep : Char) : List String :=
  let (cur, acc) := splitOnCharAux sep s.data
  (cur :: acc).map String.mk

/-- `String.prototype.replace(pat, rep)` with a string pattern: replaces the
first occurrence only. -/
def firstMatchSplit (pat : List Char) : List Char → Option (List Char × List Char)
  | [] => if pat.isEmpty then some ([], []) else none
  | c :: rest =>
    if pat.isPrefixOf (c :: rest) then some ([], (c :: rest).drop pat.length)
    else
      match firstMatchSplit pat rest with
      | some (pre, post) => some (c :: pre, post)
      | none => none

/-- `String.prototype.replace` (first occurrence, string pattern). -/
def jsReplaceFirst (s pat rep : String) : String :=
  match firstMatchSplit pat.data s.data with
  | some (pre, post) => String.mk pre ++ rep ++ String.mk post
  | none => s

/-! ## `src/utils/validation.js`

The Joi schemas.  `schema.validate(x)` never throws: it returns
`{ error, value }` with `error` set on failure.  Each schema is embedded as a
total function returning a `JoiResult`. -/

/-- Result object of `Joi.Schema.validate`: `{ error, value }`. -/
structure JoiResult (α : Type) where
  error : Option String
  value : α
deriving DecidableEq, Repr

/-- Character class `[a-fA-F0-9]`. -/
def isHexChar (c : Char) : Bool :=
  c.isDigit || ('a' ≤ c && c ≤ 'f') || ('A' ≤ c && c ≤ 'F')

/-- Character class `[a-zA-Z0-9_]`. -/
def isWordChar (c : Char) : Bool :=
  c.isAlphanum || c = '_'

/-- Character class `[a-zA-Z0-9_-]`. -/
def isAliasTailChar (c : Char) : Bool :=
  c.isAlphanum || c = '_' || c = '-'

/-- Match of `/^0x[a-fA-F0-9]{40}$/` (the `evmAddressSchema` pattern). -/
def evmAddressPattern (s : String) : Bool :=
  jsStartsWith s "0x" && s.length = 42 && (s.data.drop 2).all isHexChar

/-- `evmAddressSchema.validate` — `Joi.string().pattern(/^0x[a-fA-F0-9]{40}$/).required()`. -/
def evmAddressSchemaValidate (s : String) : JoiResult String :=
  if evmAddressPattern s then ⟨none, s⟩
  else ⟨some "Invalid EVM address format", s⟩

/-- Match of `/^@?[a-zA-Z0-9_]{5,32}$/` (the `telegramUsernameSchema` pattern):
an optional leading `@`, then 5 to 32 word characters. -/
def telegramUsernamePattern (s : String) : Bool :=
  let core := if jsStartsWith s "@" then s.data.drop 1 else s.data
  decide (5 ≤ core.length) && decide (core.length ≤ 32) && core.all isWordChar

/-- `telegramUsernameSchema.validate`. -/
def telegramUsernameSchemaValidate (s : String) : JoiResult String :=
  if telegramUsernamePattern s then ⟨none, s⟩
  else ⟨some "Invalid Telegram username format", s⟩

/-- `amountSchema.validate` —
`Joi.number().positive().precision(6).max(1000000000000).required()`.
Under Joi's default `convert` option, `precision(6)` rounds the value to six
fractional digits instead of rejecting, so it contributes no error. -/
def amountSchemaValidate (v : JsNum) : JoiResult JsNum :=
  match v with
  | .nan => ⟨some "number.base", .nan⟩
  | .num q =>
    if ¬ (0 < q) then ⟨some "Amount must be positive", v⟩
    else if (1000000000000 : ℚ) < q then ⟨some "Amount exceeds maximum allowed value", v⟩
    else ⟨none, v⟩

/-- Match of `/^[^@][a-zA-Z0-9_-]{0,15}$/` (the `friendAliasSchema` pattern):
one character other than `@`, then up to 15 characters of `[a-zA-Z0-9_-]`. -/
def friendAliasPattern (s : String) : Bool :=
  match s.data with
  | [] => false
  | c :: rest => c ≠ '@' && decide (rest.length ≤ 15) && rest.all isAliasTailChar

/-- `friendAliasSchema.validate` — the pattern above, `.min(1).max(16)` and
`.invalid('me', 'Me', 'ME')`. -/
def friendAliasSchemaValidate (s : String) : JoiResult String :=
  if s = "me" || s = "Me" || s = "ME" then ⟨some "any.invalid", s⟩
  else if ¬ friendAliasPattern s then ⟨some "string.pattern.base", s⟩
  else ⟨none, s⟩

/-- `isValidEVMAddress`:
`try { evmAddressSchema.validate(address); return true } catch { return false }`.
`validate` returns its result object (discarded) and never throws, so the
`catch` branch is dead and the function returns `true`. -/
def isValidEVMAddress (address : String) : Bool :=
  let _ := evmAddressSchemaValidate address
  true

/-- `isValidTelegramUsername`: same `try/catch` shape around a non-throwing
`validate` call. -/
def isValidTelegramUsername (username : String) : Bool :=
  let _ := telegramUsernameSchemaValidate username
  true

/-- `isValidAmount`: same `try/catch` shape around a non-throwing
`validate` call. -/
def isValidAmount (amount : JsNum) : Bool :=
  let _ := amountSchemaValidate amount
  true

/-- `isValidFriendAlias`: same `try/catch` shape around a non-throwing
`validate` call. -/
def isValidFriendAlias (alias_ : String) : Bool :=
  let _ := friendAliasSchemaValidate alias_
  true

/-- The tagged union produced by `parseRecipient`:
`{ type: 'address' | 'username' | 'userId' | 'alias', value }`. -/
inductive ParsedRecipient where
  | address : String → ParsedRecipient
  | username : String → ParsedRecipient
  | userId : Nat → ParsedRecipient
  | aliasName : String → ParsedRecipient
deriving DecidableEq, Repr

/-- `parseRecipient(recipient)` from `src/utils/validation.js`.  Thrown
`ValidationError`s are modelled as `Except.error` carrying the message. -/
def parseRecipient (recipient : String) : Except String ParsedRecipient :=
  if recipient = "" then .error "Recipient is required"
  else
    let trimmed := jsTrim recipient
    if jsStartsWith trimmed "0x" && trimmed.length = 42 then
      if isValidEVMAddress trimmed then .ok (.address trimmed)
      else .error "Invalid EVM address format"
    else if jsStartsWith trimmed "@" then
      let username := String.mk (trimmed.data.drop 1)
      if isValidTelegramUsername username then .ok (.username username)
      else .error "Invalid Telegram username format"
    else if ¬ trimmed.data.isEmpty && trimmed.data.all Char.isDigit then
      let userId := jsParseIntDigits trimmed
      if userId > 0 then .ok (.userId userId)
      else .error "Invalid Telegram user ID"
    else if trimmed.length ≤ 16 && ¬ jsStartsWith trimmed "@" then
      if isValidFriendAlias trimmed then .ok (.aliasName trimmed)
      else .error "Invalid friend alias format"
    else .error "Invalid recipient format"

/-! ## Data model (`botController.js` / `auth0Service.js`) -/

/-- A JS value stored in a friend entry: `parseRecipient` produces strings for
addresses, usernames and aliases, and a number for user ids. -/
inductive JsValue where
  | str : String → JsValue
  | num : Nat → JsValue
deriving DecidableEq, Repr

/-- Implicit string conversion (template literals, `toString()`). -/
def JsValue.toStr : JsValue → String
  | .str s => s
  | .num n => natToString n

/-- A friend entry `{ type, value }` as stored by `handleAddFriend`. -/
structure FriendData where
  type : String
  value : JsValue
deriving DecidableEq, Repr

/-- `{ type: parsed.type, value: parsed.value }` built in `handleAddFriend`. -/
def parsedToFriendData : ParsedRecipient → FriendData
  | .address v => ⟨"address", .str v⟩
  | .username v => ⟨"username", .str v⟩
  | .userId n => ⟨"userId", .num n⟩
  | .aliasName v => ⟨"alias", .str v⟩

/-- The persisted payment-request object built by
`auth0Service.createPaymentRequest` (`from`/`to` are Telegram ids; timestamps
are epoch milliseconds standing in for the ISO strings). -/
structure PaymentRequestData where
  id : String
  fromId : Nat
  toId : Nat
  amount : JsNum
  currency : String
  reason : Option String
  status : String
  created_at : Nat
  expires_at : Nat
deriving DecidableEq, Repr

/-- The `user_metadata` blob of an Auth0 user, restricted to the fields the
embedded code reads or writes.  A missing or empty `arc_address` is `none`. -/
structure UserMetadata where
  telegram_id : Nat
  telegram_username : String
  arc_address : Option String
  friends : List (String × FriendData)
  payment_requests_sent : List PaymentRequestData
  payment_requests_received : List PaymentRequestData
deriving DecidableEq, Repr

/-- An Auth0 user profile.  `telegramId` is the id encoded in the user's
`${telegramId}@telegram.bot` email, which `getUserByTelegramId` queries;
`arc_private_key` is the decrypted signing key from `app_metadata`. -/
structure User where
  user_id : String
  telegramId : Nat
  user_metadata : UserMetadata
  arc_private_key : String
deriving DecidableEq, Repr

/-- The Auth0 user directory.  `per_page: 1` searches return the first
matching profile, modelled by `List.find?`. -/
structure Directory where
  users : List User
deriving DecidableEq, Repr

/-- `auth0Service.getUserByTelegramId`: email search `${telegramId}@telegram.bot`. -/
def getUserByTelegramId (d : Directory) (telegramId : Nat) : Option User :=
  d.users.find? (fun u => u.telegramId == telegramId)

/-- `auth0Service.getUserByTelegramUsername`: strips a leading `@`
(`username.replace('@', '')`) and searches `user_metadata.telegram_username`. -/
def getUserByTelegramUsername (d : Directory) (username : String) : Option User :=
  let cleanUsername := jsReplaceFirst username "@" ""
  d.users.find? (fun u => u.user_metadata.telegram_username == cleanUsername)

/-- The record returned by `BotController.findUserByAddress`. -/
structure AddressOwner where
  telegramId : Nat
  username : String
deriving DecidableEq, Repr

/-- `BotController.findUserByAddress`: searches `user_metadata.arc_address`. -/
def findUserByAddress (d : Directory) (address : String) : Option AddressOwner :=
  (d.users.find? (fun u => u.user_metadata.arc_address == some address)).map
    (fun u => ⟨u.user_metadata.telegram_id, u.user_metadata.telegram_username⟩)

/-- `BotController.getFriendByAlias`: `user.user_metadata.friends[alias] || null`. -/
def getFriendByAlias (d : Directory) (telegramId : Nat) (alias_ : String) : Option FriendData :=
  match getUserByTelegramId d telegramId with
  | none => none
  | some user => (user.user_metadata.friends.find? (fun p => p.1 == alias_)).map (·.2)

/-- `BotController.findFriendAliasByAddress`: first alias whose entry has
`type === 'address' && value === address`. -/
def findFriendAliasByAddress (d : Directory) (telegramId : Nat) (address : String) : Option String :=
  match getUserByTelegramId d telegramId with
  | none => none
  | some user =>
    (user.user_metadata.friends.find?
      (fun p => p.2.type == "address" && p.2.value == JsValue.str address)).map (·.1)

/-- `BotController.findFriendAliasByUsername`. -/
def findFriendAliasByUsername (d : Directory) (telegramId : Nat) (username : String) : Option String :=
  match getUserByTelegramId d telegramId with
  | none => none
  | some user =>
    (user.user_metadata.friends.find?
      (fun p => p.2.type == "username" && p.2.value == JsValue.str username)).map (·.1)

/-- `BotController.findFriendAliasByUserId` (strict equality against the
stored number, so a string-valued entry never matches). -/
def findFriendAliasByUserId (d : Directory) (telegramId : Nat) (userId : Nat) : Option String :=
  match getUserByTelegramId d telegramId with
  | none => none
  | some user =>
    (user.user_metadata.friends.find?
      (fun p => p.2.type == "userId" && p.2.value == JsValue.num userId)).map (·.1)

/-- The object returned by `resolveRecipient` (the spec's `ResolvedRecipient`). -/
structure ResolvedRecipient where
  type : String
  address : String
  displayName : String
  telegramId : Option Nat := none
  username : Option String := none
  isFriend : Bool := false
deriving DecidableEq, Repr

/-- `${v.substring(0, 8)}...${v.substring(-4)}`: `substring` clamps a negative
start to `0`, so the suffix is the whole string (source quirk, reproduced). -/
def truncatedAddressDisplay (v : String) : String :=
  String.mk (v.data.take 8) ++ "..." ++ v

/-- `BotController.resolveRecipient(recipient, senderTelegramId)`.

The JS function is recursive with no structural bound (the `alias` case calls
itself on the friend entry's target), so the embedding takes a fuel argument:
`none` means the computation did not finish within `fuel` nested calls (for
every fuel, in the divergent cases), `some r` is the JS result, where `r` is
`none` exactly when JS returns `null` (including the `catch` on a parse
failure). -/
def resolveRecipient (d : Directory) : Nat → String → Option Nat → Option (Option ResolvedRecipient)
  | 0, _, _ => none
  | fuel + 1, recipient, senderTelegramId =>
    match parseRecipient recipient with
    | .error _ => some none
    | .ok parsed =>
      match parsed with
      | .address v =>
        match findUserByAddress d v with
        | some addressOwner =>
          some (some { type := "address", address := v,
                       displayName := "@" ++ addressOwner.username,
                       telegramId := some addressOwner.telegramId,
                       username := some addressOwner.username })
        | none =>
          match senderTelegramId with
          | some sid =>
            match findFriendAliasByAddress d sid v with
            | some friendAlias =>
              some (some { type := "address", address := v,
                           displayName := friendAlias, isFriend := true })
            | none =>
              some (some { type := "address", address := v,
                           displayName := truncatedAddressDisplay v })
          | none =>
            some (some { type := "address", address := v,
                         displayName := truncatedAddressDisplay v })
      | .username v =>
        match getUserByTelegramUsername d v with
        | some userByUsername =>
          match userByUsername.user_metadata.arc_address with
          | some addr =>
            match senderTelegramId with
            | some sid =>
              match findFriendAliasByUsername d sid v with
              | some friendAlias =>
                some (some { type := "username", address := addr,
                             displayName := friendAlias,
                             telegramId := some userByUsername.user_metadata.telegram_id,
                             username := some userByUsername.user_metadata.telegram_username,
                             isFriend := true })
              | none =>
                some (some { type := "username", address := addr,
                             displayName := "@" ++ v,
                             username := some userByUsername.user_metadata.telegram_username,
                             telegramId := some userByUsername.user_metadata.telegram_id })
            | none =>
              some (some { type := "username", address := addr,
                           displayName := "@" ++ v,
                           username := some userByUsername.user_metadata.telegram_username,
                           telegramId := some userByUsername.user_metadata.telegram_id })
          | none => some none
        | none => some none
      | .userId v =>
        match getUserByTelegramId d v with
        | some userById =>
          match userById.user_metadata.arc_address with
          | some addr =>
            match senderTelegramId with
            | some sid =>
              match findFriendAliasByUserId d sid v with
              | some friendAlias =>
                some (some { type := "userId", address := addr,
                             displayName := friendAlias,
                             telegramId := some userById.user_metadata.telegram_id,
                             username := some userById.user_metadata.telegram_username,
                             isFriend := true })
              | none =>
                some (some { type := "userId", address := addr,
                             displayName := "@" ++ userById.user_metadata.telegram_username,
                             username := some userById.user_metadata.telegram_username,
                             telegramId := some userById.user_metadata.telegram_id })
            | none =>
              some (some { type := "userId", address := addr,
                           displayName := "@" ++ userById.user_metadata.telegram_username,
                           username := some userById.user_metadata.telegram_username,
                           telegramId := some userById.user_metadata.telegram_id })
          | none => some none
        | none => some none
      | .aliasName v =>
        match senderTelegramId with
        | none => some none
        | some sid =>
          match getFriendByAlias d sid v with
          | none => some none
          | some friendData =>
            if friendData.type = "address" then
              some (some { type := "alias", address := friendData.value.toStr,
                           displayName := v, isFriend := true })
            else
              let inner :=
                if friendData.type = "username" then "@" ++ friendData.value.toStr
                else if friendData.type = "userId" then friendData.value.toStr
                else friendData.value.toStr
              match resolveRecipient d fuel inner senderTelegramId with
              | none => none
              | some none => some none
              | some (some resolved) =>
                some (some { resolved with displayName := v, isFriend := true })

/-! ## `handleAddFriend` -/

/-- Outcome of `BotController.handleAddFriend` (each constructor stands for
the chat message sent on that path; `added` carries the updated directory). -/
inductive AddFriendResult where
  | usage
  | invalidAlias
  | noAccount
  | invalidFriendIdentifier
  | aliasExists (existing : FriendData)
  | added (d : Directory)
deriving DecidableEq, Repr

/-- `auth0Service.updateUserMetadata(user.user_id, { ...currentMetadata, friends })`:
replace the friends map of the profile with the given `user_id`. -/
def directorySetFriends (d : Directory) (userId : String)
    (friends : List (String × FriendData)) : Directory :=
  ⟨d.users.map (fun u =>
    if u.user_id = userId then
      { u with user_metadata := { u.user_metadata with friends := friends } }
    else u)⟩

/-- `BotController.handleAddFriend(message, args)` for a sender with id
`telegramId`.  Note: the alias check `isValidFriendAlias` always returns
`true`, and the target may be of any parsed kind, including `alias`. -/
def handleAddFriend (d : Directory) (telegramId : Nat) (args : List String) : AddFriendResult :=
  if args.length < 2 then .usage
  else
    match args with
    | aliasInput :: friendInput :: _ =>
      if ¬ isValidFriendAlias aliasInput then .invalidAlias
      else
        match getUserByTelegramId d telegramId with
        | none => .noAccount
        | some user =>
          match parseRecipient friendInput with
          | .error _ => .invalidFriendIdentifier
          | .ok parsed =>
            let friendData := parsedToFriendData parsed
            let friends := user.user_metadata.friends
            match friends.find? (fun p => p.1 == aliasInput) with
            | some p => .aliasExists p.2
            | none =>
              .added (directorySetFriends d user.user_id (friends ++ [(aliasInput, friendData)]))
    | _ => .usage

/-! ## Payment confirmation state machine (`botController.js`)

The controller's externally visible behaviour is modelled as a transition
system.  `SysState` holds the Auth0 directory, the in-memory
`this.pendingPayments` map, the trace of `arcService.sendUSDCPayment` calls
(the payment rail) and the trace of Telegram sends.  Each handler is a state
transformer; the rail's success flag is an oracle parameter.  Chat ids equal
the Telegram user id of the chat partner (private chats). -/

/-- One `arcService.sendUSDCPayment(privateKey, to, amount)` invocation. -/
structure TransferCall where
  privateKey : String
  toAddress : String
  amount : JsNum
deriving DecidableEq, Repr

/-- An entry of `this.pendingPayments` (fields the handlers read:
`payer`, `requester`, `requesterAddress`, `amount`, `expiresAt`). -/
structure PendingPayment where
  payer : Nat
  requester : Nat
  requesterAddress : String
  amount : JsNum
  expiresAt : Option Nat
deriving DecidableEq, Repr

/-- A Telegram side effect.  The `tag` names the message template of the
call site; button payloads carry the `callback_data` strings. -/
inductive OutMsg where
  | sendMessage (chatId : Nat) (tag : String)
  | sendMessageButtons (chatId : Nat) (tag : String) (callbackData : List String)
  | sendErrorMessage (chatId : Nat) (tag : String)
  | editMessage (chatId : Nat) (tag : String)
  | answerCallbackQuery (tag : String)
deriving DecidableEq, Repr

/-- Full state of the embedded controller plus its environment. -/
structure SysState where
  directory : Directory
  pendingPayments : List (String × PendingPayment)
  transfers : List TransferCall
  out : List OutMsg
deriving DecidableEq, Repr

/-- `auth0Service.updateUserMetadata(userId, metadata)`: replace the metadata
of the profile with the given `user_id`. -/
def directoryUpdateMetadata (d : Directory) (userId : String) (meta : UserMetadata) : Directory :=
  ⟨d.users.map (fun u => if u.user_id = userId then { u with user_metadata := meta } else u)⟩

/-- `auth0Service.createPaymentRequest(fromTelegramId, toTelegramId, amount,
currency, reason)`.  `freshId` stands for the generated
`req_${Date.now()}_${random}` id; `now` for `Date.now()`.  Both users are
fetched first; each update then writes metadata derived from its own
pre-update fetch (so a self-request overwrites the first write — reproduced). -/
def createPaymentRequest (d : Directory) (now : Nat) (freshId : String)
    (fromTelegramId toTelegramId : Nat) (amount : JsNum) (currency : String)
    (reason : Option String) : Except String (Directory × PaymentRequestData) :=
  let requestData : PaymentRequestData :=
    { id := freshId, fromId := fromTelegramId, toId := toTelegramId,
      amount := amount, currency := currency, reason := reason,
      status := "pending", created_at := now,
      expires_at := now + 24 * 60 * 60 * 1000 }
  match getUserByTelegramId d fromTelegramId, getUserByTelegramId d toTelegramId with
  | some fromUser, some toUser =>
    let d1 := directoryUpdateMetadata d fromUser.user_id
      { fromUser.user_metadata with
        payment_requests_sent := fromUser.user_metadata.payment_requests_sent ++ [requestData] }
    let d2 := directoryUpdateMetadata d1 toUser.user_id
      { toUser.user_metadata with
        payment_requests_received := toUser.user_metadata.payment_requests_received ++ [requestData] }
    .ok (d2, requestData)
  | _, _ => .error "One or both users not found"

/-- `BotController.handleRequest(message, args)` for a sender `telegramId`.

Note that this handler never writes to `this.pendingPayments`; the
`pay_`/`decline_` buttons it sends refer to the persisted Auth0 request id.
After both sends succeed, `logger.audit` references the undefined variable
`requestId`, raising a `ReferenceError` that the inner `catch` converts into
the could-not-send error message (reproduced). -/
def handleRequest (s : SysState) (telegramId : Nat) (args : List String)
    (now : Nat) (freshId : String) (fuel : Nat) : SysState :=
  if args.length < 2 then
    { s with out := s.out ++ [.sendMessage telegramId "Usage: request user amount reason"] }
  else
    match args with
    | payerInput :: amountInput :: reasonParts =>
      -- `if (!isValidAmount(parseFloat(amountInput))) throw ...` is dead:
      -- `isValidAmount` always returns true.
      let amount := jsParseFloat amountInput
      match getUserByTelegramId s.directory telegramId with
      | none =>
        { s with out := s.out ++ [.sendErrorMessage telegramId "Please create an account first"] }
      | some _requester =>
        match resolveRecipient s.directory fuel payerInput (some telegramId) with
        | none => s
        | some resolvedOpt =>
          match resolvedOpt with
          | none =>
            { s with out := s.out ++ [.sendMessage telegramId "User not found"] }
          | some resolved =>
            match resolved.telegramId with
            | none =>
              { s with out := s.out ++ [.sendMessage telegramId "User not found"] }
            | some payerId =>
              let reason :=
                if reasonParts.isEmpty then none
                else some (String.intercalate " " reasonParts)
              match createPaymentRequest s.directory now freshId telegramId payerId
                  amount "USDC" reason with
              | .error _ =>
                { s with out := s.out ++ [.sendErrorMessage telegramId "Failed to send request"] }
              | .ok (d2, paymentRequest) =>
                { s with
                  directory := d2,
                  out := s.out ++
                    [.sendMessageButtons payerId "USDC Payment Request"
                        ["pay_" ++ paymentRequest.id, "decline_" ++ paymentRequest.id],
                     .sendMessage telegramId "Payment request sent, expires in 30 minutes",
                     .sendErrorMessage telegramId "Could not send request"] }
    | _ => { s with out := s.out ++ [.sendMessage telegramId "Usage: request user amount reason"] }

/-- `BotController.handlePaymentCallback(query, data)` — the `pay_` button.
The rail transfer is invoked while the ticket is still in the map; the
`pendingPayments.delete` happens only after a successful rail call. -/
def handlePaymentCallback (s : SysState) (fromId : Nat) (data : String) (railOk : Bool) : SysState :=
  let requestId := jsReplaceFirst data "pay_" ""
  match s.pendingPayments.find? (fun p => p.1 == requestId) with
  | none =>
    { s with out := s.out ++ [.answerCallbackQuery "Request expired or already processed"] }
  | some (_, request) =>
    if request.payer ≠ fromId then
      { s with out := s.out ++ [.answerCallbackQuery "This request is not for you"] }
    else
      match getUserByTelegramId s.directory fromId with
      | none =>
        { s with out := s.out ++ [.answerCallbackQuery "Please create an account first"] }
      | some payer =>
        let s2 : SysState :=
          { s with
            out := s.out ++ [.answerCallbackQuery "Processing payment"],
            transfers := s.transfers ++
              [⟨payer.arc_private_key, request.requesterAddress, request.amount⟩] }
        if railOk then
          { s2 with
            out := s2.out ++ [.editMessage fromId "USDC Payment Completed",
                              .sendMessage request.requester "USDC payment received"],
            pendingPayments := s2.pendingPayments.filter (fun p => ¬ (p.1 == requestId)) }
        else
          { s2 with out := s2.out ++ [.answerCallbackQuery "Payment failed. Check your balance."] }

/-- `BotController.handleDeclineCallback(query, data)` — the `decline_`
button.  When the map has no entry for the id (or the presser is not the
payer) the handler does nothing at all; the persisted Auth0 request's
`status` field is not updated on any path. -/
def handleDeclineCallback (s : SysState) (fromId : Nat) (data : String) : SysState :=
  let requestId := jsReplaceFirst data "decline_" ""
  match s.pendingPayments.find? (fun p => p.1 == requestId) with
  | some (_, request) =>
    if request.payer = fromId then
      { s with
        out := s.out ++ [.editMessage fromId "Payment request declined",
                         .sendMessage request.requester "declined your USDC payment request",
                         .answerCallbackQuery "Request declined"],
        pendingPayments := s.pendingPayments.filter (fun p => ¬ (p.1 == requestId)) }
    else s
  | none => s

/-- `JsNum` comparison `amount <= 0` (false for `NaN`). -/
def JsNum.leZero : JsNum → Bool
  | .nan => false
  | .num q => q ≤ 0

/-- `BotController.handleConfirmPayCallback(query, data)` — the
`confirm_pay_` button.  The payload `confirm_pay_address_amount_currency` is
self-describing; no ticket is looked up or consumed, and each press that
passes the syntactic checks invokes the rail once.  The `currency` check has
identical branches (both call `sendUSDCPayment`), collapsed here. -/
def handleConfirmPayCallback (s : SysState) (fromId : Nat) (data : String) (railOk : Bool) : SysState :=
  let s0 : SysState :=
    { s with out := s.out ++ [.answerCallbackQuery "Processing payment",
                              .editMessage fromId "Processing Payment placeholder"] }
  match jsSplit data '_' with
  | _ :: _ :: targetAddress :: amountStr :: currencyRaw :: _ =>
    -- `const amount = parseFloat(parts[3]) || null`
    let amount := jsParseFloat amountStr
    let currency := jsToUpper currencyRaw
    match getUserByTelegramId s0.directory fromId with
    | none => { s0 with out := s0.out ++ [.editMessage fromId "Please create an account first"] }
    | some user =>
      if amount.isFalsy || amount.leZero then
        { s0 with out := s0.out ++ [.editMessage fromId "Invalid payment amount"] }
      else
        let s1 : SysState :=
          { s0 with transfers := s0.transfers ++
              [⟨user.arc_private_key, targetAddress, amount⟩] }
        if railOk then
          { s1 with out := s1.out ++ [.editMessage fromId (currency ++ " Payment Sent Successfully")] }
        else
          { s1 with out := s1.out ++ [.editMessage fromId "Payment failed"] }
  | _ => { s0 with out := s0.out ++ [.editMessage fromId "Invalid payment data"] }

/-- `BotController.handleCancelPayCallback`. -/
def handleCancelPayCallback (s : SysState) (fromId : Nat) : SysState :=
  { s with out := s.out ++ [.answerCallbackQuery "Payment cancelled",
                            .editMessage fromId "Payment cancelled"] }

/-- The sweep in `BotController.startCleanupTimer`: delete every entry with
`expiresAt && now > expiresAt`. -/
def cleanupPendingPayments (s : SysState) (now : Nat) : SysState :=
  { s with pendingPayments := s.pendingPayments.filter (fun p =>
      match p.2.expiresAt with
      | some e => ¬ (now > e)
      | none => true) }

/-- `handleAddFriend` wired into the system state (responses collapsed into
one tagged message; only the `added` branch changes state). -/
def applyAddFriend (s : SysState) (fromId : Nat) (args : List String) : SysState :=
  match handleAddFriend s.directory fromId args with
  | .added d => { s with directory := d, out := s.out ++ [.sendMessage fromId "Friend added"] }
  | _ => { s with out := s.out ++ [.sendMessage fromId "addfriend response"] }

/-- One incoming update.  `otherUpdate` stands for every remaining handler
(`/start`, `/balance`, `/pay`, `/qr`, `/myqr`, `/history`, `/network`,
`/removefriend`, `/friends`, deep links, amount input, the QR callback and
the agent flows): none of them mentions `this.pendingPayments`, so they are
abstracted as an arbitrary directory change. -/
inductive Event where
  | requestCmd (fromId : Nat) (args : List String) (now : Nat) (freshId : String) (fuel : Nat)
  | payCallback (fromId : Nat) (data : String) (railOk : Bool)
  | declineCallback (fromId : Nat) (data : String)
  | confirmPayCallback (fromId : Nat) (data : String) (railOk : Bool)
  | cancelPayCallback (fromId : Nat)
  | addFriendCmd (fromId : Nat) (args : List String)
  | cleanupTick (now : Nat)
  | otherUpdate (f : Directory → Directory)

/-- Dispatch of one update to its handler. -/
def stepEvent (s : SysState) : Event → SysState
  | .requestCmd fromId args now freshId fuel => handleRequest s fromId args now freshId fuel
  | .payCallback fromId data railOk => handlePaymentCallback s fromId data railOk
  | .declineCallback fromId data => handleDeclineCallback s fromId data
  | .confirmPayCallback fromId data railOk => handleConfirmPayCallback s fromId data railOk
  | .cancelPayCallback fromId => handleCancelPayCallback s fromId
  | .addFriendCmd fromId args => applyAddFriend s fromId args
  | .cleanupTick now => cleanupPendingPayments s now
  | .otherUpdate f => { s with directory := f s.directory }

/-- The state after the `BotController` constructor ran:
`this.pendingPayments = new Map()`. -/
def initState (d : Directory) : SysState := ⟨d, [], [], []⟩

/-- States reachable from a fresh controller over directory `d0`. -/
inductive Reachable (d0 : Directory) : SysState → Prop
  | init : Reachable d0 (initState d0)
  | step (s : SysState) (e : Event) : Reachable d0 s → Reachable d0 (stepEvent s e)

/-! ## Concrete demonstration data -/

/-- A syntactically valid EVM address. -/
def demoAddrA : String := "0xaaaaaaaaaaaaaaaaaaaaaaaaaaaaaaaaaaaaaaaa"

/-- A second syntactically valid EVM address. -/
def demoAddrB : String := "0xbbbbbbbbbbbbbbbbbbbbbbbbbbbbbbbbbbbbbbbb"

/-- Registered user alice (Telegram id 1, wallet `demoAddrA`). -/
def demoAlice : User := ⟨"auth0|1", 1, ⟨1, "alice", some demoAddrA, [], [], []⟩, "k1"⟩

/-- Registered user bob (Telegram id 2, handle `bob`, wallet `demoAddrB`). -/
def demoBob : User := ⟨"auth0|2", 2, ⟨2, "bob", some demoAddrB, [], [], []⟩, "k2"⟩

/-- Directory holding alice and bob with empty friend maps. -/
def demoDir : Directory := ⟨[demoAlice, demoBob]⟩

/-- `demoDir` with alice's friends map holding the all-digit alias
`123 → demoAddrB` (the state `handleAddFriend demoDir 1 ["123", demoAddrB]`
produces). -/
def demoDirDigitAlias : Directory :=
  ⟨[{ demoAlice with user_metadata := { demoAlice.user_metadata with
        friends := [("123", ⟨"address", .str demoAddrB⟩)] } }, demoBob]⟩

/-- `demoDir` with alice's friends map holding `bob → @bob`. -/
def demoDirBobAlias : Directory :=
  ⟨[{ demoAlice with user_metadata := { demoAlice.user_metadata with
        friends := [("bob", ⟨"username", .str "bob"⟩)] } }, demoBob]⟩

/-- A directory in which alice's alias `a` targets the alias string `a`
itself — the state `handleAddFriend _ 1 ["a", "a"]` produces. -/
def selfAliasDir : Directory :=
  ⟨[{ demoAlice with user_metadata := { demoAlice.user_metadata with
        friends := [("a", ⟨"alias", .str "a"⟩)] } }]⟩

/-- The `confirm_pay_` button payload for 5 USDC to `demoAddrB`. -/
def demoConfirmPayData : String := "confirm_pay_" ++ demoAddrB ++ "_5_USDC"

/-- State after the first `confirm_pay_` press by alice. -/
def confirmPayPress1 : SysState :=
  handleConfirmPayCallback (initState demoDir) 1 demoConfirmPayData true

/-- State after a second press of the same button. -/
def confirmPayPress2 : SysState :=
  handleConfirmPayCallback confirmPayPress1 1 demoConfirmPayData true

/-- State after alice runs `/request @bob 5` (request id `req1`, created at
time 1000). -/
def requestScenarioAfterRequest : SysState :=
  handleRequest (initState demoDir) 1 ["@bob", "5"] 1000 "req1" 2

/-- State after bob then presses the Decline button of that request. -/
def requestScenarioAfterDecline : SysState :=
  handleDeclineCallback requestScenarioAfterRequest 2 "decline_req1"

/-- `demoDir` with alice's friends map holding `bb → demoAddrB` (the state
`handleAddFriend demoDir 1 ["bb", demoAddrB]` produces). -/
def demoDirAliasBB : Directory :=
  ⟨[{ demoAlice with user_metadata := { demoAlice.user_metadata with
        friends := [("bb", ⟨"address", .str demoAddrB⟩)] } }, demoBob]⟩

/-- `demoDir` after `/addfriend bff bob5` by alice: the target `bob5` parses
as an alias, and `handleAddFriend` stores it with kind `alias`. -/
def demoDirAliasKindTarget : Directory :=
  ⟨[{ demoAlice with user_metadata := { demoAlice.user_metadata with
        friends := [("bff", ⟨"alias", .str "bob5"⟩)] } }, demoBob]⟩

/-! # Claim theorems -/

/-- Claim C9 (confirmed): for every input value, the boolean validators
`isValidEVMAddress`, `isValidTelegramUsername`, `isValidAmount` and
`isValidFriendAlias` return `true`.  Each wraps Joi's `schema.validate` in
`try/catch`, but `validate` reports failure through the `error` field of its
result object rather than by throwing, so the `catch` branch returning
`false` is unreachable. -/
theorem validators_always_true :
    (∀ a : String, isValidEVMAddress a = true) ∧
    (∀ u : String, isValidTelegramUsername u = true) ∧
    (∀ v : JsNum, isValidAmount v = true) ∧
    (∀ f : String, isValidFriendAlias f = true) :=
  ⟨fun _ => rfl, fun _ => rfl, fun _ => rfl, fun _ => rfl⟩

/-- Claim C7 (code_bug): the claim states the intended semantics of the
amount validator (accept positive decimals up to one trillion, reject
`0`, `-5`, `abc` (`NaN`), `1000000000001`), and `amountSchema` indeed flags
each rejected value with an error — but `isValidAmount` discards the
returned error object and returns `true` on all of them, because Joi's
`validate` never throws. -/
theorem isValidAmount_accepts_everything :
    isValidAmount (.num 0) = true ∧
    isValidAmount (.num (-5)) = true ∧
    isValidAmount .nan = true ∧
    isValidAmount (.num 1000000000001) = true ∧
    (amountSchemaValidate (.num 0)).error.isSome = true ∧
    (amountSchemaValidate (.num (-5))).error.isSome = true ∧
    (amountSchemaValidate .nan).error.isSome = true ∧
    (amountSchemaValidate (.num 1000000000001)).error.isSome = true ∧
    (amountSchemaValidate (.num 10)).error = none ∧
    (amountSchemaValidate (.num (1 / 1000000))).error = none := by
  refine ⟨rfl, rfl, rfl, rfl, by decide, by decide, rfl, by decide, by decide, ?_⟩
  rw [amountSchemaValidate]
  norm_num

/-- Claim C8 (code_bug): the claim states the intended semantics of the
friend-alias validator, and `friendAliasSchema` indeed flags `me`, `ME`,
`@bob`, a 17-character string and a string with an (interior) space — but
`isValidFriendAlias` discards the returned error object and returns `true`
on every input, because Joi's `validate` never throws.  (`bob-2` is accepted
by the schema, as the claim says.) -/
theorem isValidFriendAlias_accepts_everything :
    isValidFriendAlias "me" = true ∧
    isValidFriendAlias "ME" = true ∧
    isValidFriendAlias "@bob" = true ∧
    isValidFriendAlias "abcdefghijklmnopq" = true ∧
    isValidFriendAlias "b ob" = true ∧
    (friendAliasSchemaValidate "me").error.isSome = true ∧
    (friendAliasSchemaValidate "ME").error.isSome = true ∧
    (friendAliasSchemaValidate "@bob").error.isSome = true ∧
    (friendAliasSchemaValidate "abcdefghijklmnopq").error.isSome = true ∧
    (friendAliasSchemaValidate "b ob").error.isSome = true ∧
    (friendAliasSchemaValidate "bob-2").error = none := by
  refine ⟨rfl, rfl, rfl, rfl, rfl, ?_, ?_, ?_, ?_, ?_, ?_⟩ <;> decide

/-- Claim C5, counterexample: `parseRecipient` classifies the 42-character
string `0x` + 40 × `z` as an `address` instead of failing with the
invalid-address error (the strict-pattern rejection is unreachable because
`isValidEVMAddress` always returns `true`), and it reinterprets the
hex-prefixed wrong-length string `0xzz` as an alias. -/
theorem parseRecipient_hex_nearmiss_counterexample :
    parseRecipient "0xzzzzzzzzzzzzzzzzzzzzzzzzzzzzzzzzzzzzzzzz" =
      .ok (.address "0xzzzzzzzzzzzzzzzzzzzzzzzzzzzzzzzzzzzzzzzz") ∧
    parseRecipient "0xzz" = .ok (.aliasName "0xzz") := by
  exact ⟨by decide, by decide⟩

/-- Claim C1 (code_bug): on the direct-confirmation path (`confirm_pay_`
button) there is no ticket at all — the payload is self-describing and is
never looked up in, inserted into, or deleted from any store — so two
presses of the same confirm button by a registered user invoke the payment
rail once per press: after two presses the `sendUSDCPayment` trace has two
identical transfers, and the second press is answered with the normal
processing/success messages, not with a not-found error. -/
theorem confirmPay_double_press_double_transfer :
    confirmPayPress2.transfers =
      [⟨"k1", demoAddrB, .num 5⟩, ⟨"k1", demoAddrB, .num 5⟩] ∧
    confirmPayPress2.out.drop confirmPayPress1.out.length =
      [.answerCallbackQuery "Processing payment",
       .editMessage 1 "Processing Payment placeholder",
       .editMessage 1 "USDC Payment Sent Successfully"] := by
  exact ⟨by decide, by decide⟩

/-- Claim C2 (code_bug): after alice's `/request @bob 5` creates the
persisted request `req1` (status `pending`) and sends bob the
`pay_req1`/`decline_req1` buttons, bob's Decline press is a no-op: the
handler looks `req1` up in the never-populated in-memory `pendingPayments`
map, finds nothing, and returns — the persisted status stays `pending` in
both profiles, alice receives no decline notice (the state is unchanged, no
message is sent), and no rail transfer is ever made (that conjunct of the
claim does hold). -/
theorem decline_leaves_request_pending :
    requestScenarioAfterRequest.out =
      [.sendMessageButtons 2 "USDC Payment Request" ["pay_req1", "decline_req1"],
       .sendMessage 1 "Payment request sent, expires in 30 minutes",
       .sendErrorMessage 1 "Could not send request"] ∧
    requestScenarioAfterDecline = requestScenarioAfterRequest ∧
    ((getUserByTelegramId requestScenarioAfterDecline.directory 2).map
      (fun u => u.user_metadata.payment_requests_received.map (·.status))) = some ["pending"] ∧
    ((getUserByTelegramId requestScenarioAfterDecline.directory 1).map
      (fun u => u.user_metadata.payment_requests_sent.map (·.status))) = some ["pending"] ∧
    requestScenarioAfterDecline.transfers = [] := by
  exact ⟨by decide, by decide, by decide, by decide, by decide⟩

/-- Claim C5, amended: for every already-trimmed string with the `0x`
prefix, `parseRecipient` classifies it as an `address` whenever its total
length is 42 — regardless of whether the characters after the prefix are
hexadecimal, because the strict-pattern rejection branch is unreachable
(`isValidEVMAddress` always returns `true`) — while a `0x`-prefixed string
of the wrong length falls through to the later rules: with length at most 16
it is reinterpreted as an alias (`isValidFriendAlias` always returns
`true`), and with length above 16 (and not 42) it fails with the generic
invalid-recipient error, not the invalid-address error. -/
theorem parseRecipient_hex_prefix_behavior (s : String)
    (ht : jsTrim s = s) (h0 : jsStartsWith s "0x" = true) :
    (s.length = 42 → parseRecipient s = .ok (.address s)) ∧
    (s.length ≤ 16 → parseRecipient s = .ok (.aliasName s)) ∧
    (s.length ≠ 42 → 16 < s.length → parseRecipient s = .error "Invalid recipient format") := by
  obtain ⟨t, hdata⟩ : ∃ t, s.data = '0' :: 'x' :: t := by
    have h2 : ("0x".data).isPrefixOf s.data = true := h0
    rw [List.isPrefixOf_iff_prefix] at h2
    obtain ⟨t, htail⟩ := h2
    exact ⟨t, htail.symm⟩
  have hne : ¬ (s = "") := by
    intro h
    rw [h] at hdata
    exact absurd hdata (by simp [String.data])
  have hat : jsStartsWith s "@" = false := by
    unfold jsStartsWith
    rw [hdata]
    rfl
  have hdig : s.data.all Char.isDigit = false := by
    rw [hdata]
    rfl
  refine ⟨?_, ?_, ?_⟩
  · intro h42
    simp [parseRecipient, hne, ht, h0, h42, isValidEVMAddress]
  · intro h16
    have h42 : ¬ (s.length = 42) := by omega
    simp [parseRecipient, hne, ht, h0, h42, hat, hdig, h16, isValidFriendAlias]
  · intro h42 h16
    simp [parseRecipient, hne, ht, h0, h42, hat, hdig, isValidFriendAlias]
    omega

/-- Witness for `parseRecipient_hex_prefix_behavior` at the concrete
hex-prefixed wrong-length input `0xzz`. -/
theorem parseRecipient_hex_prefix_behavior_witness :
    jsTrim "0xzz" = "0xzz" ∧ jsStartsWith "0xzz" "0x" = true ∧
    parseRecipient "0xzz" = .ok (.aliasName "0xzz") := by
  refine ⟨by decide, by decide, ?_⟩
  exact (parseRecipient_hex_prefix_behavior "0xzz" (by decide) (by decide)).2.1 (by decide)

/-- Claim C4 (confirmed): for a registered user with handle `bob` that has a
wallet address, resolving `@bob` on behalf of a requester whose reverse
alias lookup yields the alias `bob` produces `displayName = "bob"` with the
friend flag (the alias wins), while resolving it for a requester with no
alias targeting that username produces `displayName = "@bob"`; in both
cases the owner's Telegram id (and handle) are set in the result, and the
address is the owner's wallet address. -/
theorem resolve_username_override (d : Directory) (bobUser : User) (addr : String) (rId r2Id : Nat)
    (hb : getUserByTelegramUsername d "bob" = some bobUser)
    (haddr : bobUser.user_metadata.arc_address = some addr)
    (halias : findFriendAliasByUsername d rId "bob" = some "bob")
    (hnoalias : findFriendAliasByUsername d r2Id "bob" = none) :
    resolveRecipient d 1 "@bob" (some rId) =
      some (some { type := "username", address := addr, displayName := "bob",
                   telegramId := some bobUser.user_metadata.telegram_id,
                   username := some bobUser.user_metadata.telegram_username,
                   isFriend := true }) ∧
    resolveRecipient d 1 "@bob" (some r2Id) =
      some (some { type := "username", address := addr, displayName := "@bob",
                   telegramId := some bobUser.user_metadata.telegram_id,
                   username := some bobUser.user_metadata.telegram_username }) := by
  have hp : parseRecipient "@bob" = .ok (.username "bob") := by decide
  constructor
  · simp [resolveRecipient, hp, hb, haddr, halias]
  · simp [resolveRecipient, hp, hb, haddr, hnoalias]

/-- Witness for `resolve_username_override`: in `demoDirBobAlias`, alice
(id 1) aliased `bob → @bob` and gets `displayName "bob"`, while bob himself
(id 2, no aliases) gets `displayName "@bob"`. -/
theorem resolve_username_override_witness :
    resolveRecipient demoDirBobAlias 1 "@bob" (some 1) =
      some (some { type := "username", address := demoAddrB, displayName := "bob",
                   telegramId := some 2, username := some "bob", isFriend := true }) ∧
    resolveRecipient demoDirBobAlias 1 "@bob" (some 2) =
      some (some { type := "username", address := demoAddrB, displayName := "@bob",
                   telegramId := some 2, username := some "bob" }) :=
  resolve_username_override demoDirBobAlias demoBob demoAddrB 1 2
    (by decide) (by decide) (by decide) (by decide)

/-! ### Helper lemmas: no handler ever inserts into `pendingPayments` -/

/-- `handleRequest` never touches `this.pendingPayments`. -/
theorem handleRequest_pendingPayments (s : SysState) (t : Nat) (a : List String)
    (n : Nat) (f : String) (k : Nat) :
    (handleRequest s t a n f k).pendingPayments = s.pendingPayments := by
  unfold handleRequest
  repeat' split
  all_goals try rfl
  all_goals (dsimp only; repeat' split)
  all_goals rfl

/-- `handleConfirmPayCallback` never touches `this.pendingPayments`. -/
theorem handleConfirmPay_pendingPayments (s : SysState) (f : Nat) (data : String) (r : Bool) :
    (handleConfirmPayCallback s f data r).pendingPayments = s.pendingPayments := by
  unfold handleConfirmPayCallback
  repeat' split
  all_goals try rfl
  all_goals (dsimp only; repeat' split)
  all_goals rfl

/-- `handleAddFriend` never touches `this.pendingPayments`. -/
theorem applyAddFriend_pendingPayments (s : SysState) (f : Nat) (a : List String) :
    (applyAddFriend s f a).pendingPayments = s.pendingPayments := by
  unfold applyAddFriend
  repeat' split
  all_goals rfl

/-- With an empty map, a `pay_` press takes the entry-missing branch. -/
theorem handlePaymentCallback_empty (s : SysState) (h : s.pendingPayments = [])
    (fromId : Nat) (data : String) (railOk : Bool) :
    handlePaymentCallback s fromId data railOk =
      { s with out := s.out ++ [.answerCallbackQuery "Request expired or already processed"] } := by
  unfold handlePaymentCallback
  rw [h]
  rfl

/-- With an empty map, a `decline_` press does nothing. -/
theorem handleDeclineCallback_empty (s : SysState) (h : s.pendingPayments = [])
    (fromId : Nat) (data : String) :
    handleDeclineCallback s fromId data = s := by
  unfold handleDeclineCallback
  rw [h]
  rfl

/-- In every reachable state the `pendingPayments` map is empty. -/
theorem reachable_pp_empty (d0 : Directory) (s : SysState) (h : Reachable d0 s) :
    s.pendingPayments = [] := by
  induction h with
  | init => rfl
  | step s' e hr ih =>
    cases e with
    | requestCmd f a n fid k => rw [stepEvent, handleRequest_pendingPayments]; exact ih
    | payCallback f data r => rw [stepEvent, handlePaymentCallback_empty s' ih]; exact ih
    | declineCallback f data => rw [stepEvent, handleDeclineCallback_empty s' ih]; exact ih
    | confirmPayCallback f data r => rw [stepEvent, handleConfirmPay_pendingPayments]; exact ih
    | cancelPayCallback f => rw [stepEvent]; exact ih
    | addFriendCmd f a => rw [stepEvent, applyAddFriend_pendingPayments]; exact ih
    | cleanupTick n => simp [stepEvent, cleanupPendingPayments, ih]
    | otherUpdate f => simpa [stepEvent] using ih

/-- Claim C10 (confirmed): in every reachable state of the bot controller
the in-memory `pendingPayments` map is empty — no handler ever inserts into
it (in particular `handleRequest`, which sends the `pay_`/`decline_`
buttons, does not) — so a `pay_` press is always answered with the
"Request expired or already processed" alert without any rail transfer or
other effect, and a `decline_` press leaves the state entirely unchanged. -/
theorem pendingPayments_always_empty (d0 : Directory) (s : SysState) (h : Reachable d0 s) :
    s.pendingPayments = [] ∧
    (∀ fromId data railOk,
      handlePaymentCallback s fromId data railOk =
        { s with out := s.out ++ [.answerCallbackQuery "Request expired or already processed"] }) ∧
    (∀ fromId data, handleDeclineCallback s fromId data = s) := by
  have he := reachable_pp_empty d0 s h
  exact ⟨he, fun fromId data railOk => handlePaymentCallback_empty s he fromId data railOk,
         fun fromId data => handleDeclineCallback_empty s he fromId data⟩

/-- Witness for `pendingPayments_always_empty`: the state reached by one
`/request @bob 5` from the fresh controller over `demoDir`; the Pay Now
press is answered with the expired alert and the Decline press is a no-op. -/
theorem pendingPayments_always_empty_witness :
    (stepEvent (initState demoDir) (.requestCmd 1 ["@bob", "5"] 1000 "req1" 2)).pendingPayments = [] ∧
    handlePaymentCallback
        (stepEvent (initState demoDir) (.requestCmd 1 ["@bob", "5"] 1000 "req1" 2)) 2 "pay_req1" true =
      { stepEvent (initState demoDir) (.requestCmd 1 ["@bob", "5"] 1000 "req1" 2) with
        out := (stepEvent (initState demoDir) (.requestCmd 1 ["@bob", "5"] 1000 "req1" 2)).out ++
          [.answerCallbackQuery "Request expired or already processed"] } ∧
    handleDeclineCallback
        (stepEvent (initState demoDir) (.requestCmd 1 ["@bob", "5"] 1000 "req1" 2)) 2 "decline_req1" =
      stepEvent (initState demoDir) (.requestCmd 1 ["@bob", "5"] 1000 "req1" 2) := by
  have h := pendingPayments_always_empty demoDir _
    (Reachable.step _ (.requestCmd 1 ["@bob", "5"] 1000 "req1" 2) Reachable.init)
  exact ⟨h.1, h.2.1 2 "pay_req1" true, h.2.2 2 "decline_req1"⟩

/-! ### Helper lemmas for resolution after an address-book update -/

/-- Updating the profile with `user`'s `user_id` in a directory whose first
match for a Telegram-id search is `user` (and in which no other profile
shares that `user_id`) makes the same search return the updated profile,
provided the update preserves the Telegram id. -/
theorem find?_update_by_id (l : List User) (user : User) (tid : Nat) (g : User → User)
    (hgid : (g user).telegramId = user.telegramId)
    (hfind : l.find? (fun u => u.telegramId == tid) = some user)
    (huniq : ∀ v ∈ l, v.user_id = user.user_id → v = user) :
    (l.map (fun u => if u.user_id = user.user_id then g u else u)).find?
      (fun u => u.telegramId == tid) = some (g user) := by
  induction l with
  | nil => simp at hfind
  | cons v rest ih =>
    by_cases hv : (v.telegramId == tid) = true
    · simp only [List.find?, hv] at hfind
      have hveq : v = user := by injection hfind
      subst hveq
      have hg : ((g v).telegramId == tid) = true := by rw [hgid]; exact hv
      simp only [List.map_cons]
      simp only [if_true]
      simp only [List.find?, hg]
    · have hvf : (v.telegramId == tid) = false := by
        revert hv
        cases (v.telegramId == tid) <;> simp
      simp only [List.find?, hvf] at hfind
      have hne : ¬ (v.user_id = user.user_id) := by
        intro hid
        have hveq := huniq v (List.mem_cons_self v rest) hid
        rw [hveq] at hvf
        rw [List.find?_some hfind] at hvf
        cases hvf
      simp only [List.map_cons, if_neg hne, List.find?, hvf]
      exact ih hfind (fun w hw hid => huniq w (List.mem_cons_of_mem v hw) hid)

/-- `getUserByTelegramId` after `directorySetFriends` (the update performed
by `handleAddFriend` through `updateUserMetadata`). -/
theorem getUserByTelegramId_setFriends (d : Directory) (tid : Nat) (user : User)
    (friends' : List (String × FriendData))
    (hu : getUserByTelegramId d tid = some user)
    (huniq : ∀ v ∈ d.users, v.user_id = user.user_id → v = user) :
    getUserByTelegramId (directorySetFriends d user.user_id friends') tid =
      some { user with user_metadata := { user.user_metadata with friends := friends' } } :=
  find?_update_by_id d.users user tid
    (fun u => { u with user_metadata := { u.user_metadata with friends := friends' } }) rfl hu huniq

/-- One unfolding of the alias case of `resolveRecipient`, keeping the
recursive call folded. -/
theorem resolveRecipient_alias_step (d : Directory) (fuel : Nat) (r v : String) (sid : Nat)
    (fd : FriendData)
    (hal : parseRecipient r = .ok (.aliasName v))
    (hg : getFriendByAlias d sid v = some fd) :
    resolveRecipient d (fuel + 1) r (some sid) =
      if fd.type = "address" then
        some (some { type := "alias", address := fd.value.toStr,
                     displayName := v, isFriend := true })
      else
        match resolveRecipient d fuel
            (if fd.type = "username" then "@" ++ fd.value.toStr
             else if fd.type = "userId" then fd.value.toStr else fd.value.toStr)
            (some sid) with
        | none => none
        | some none => some none
        | some (some resolved) =>
          some (some { resolved with displayName := v, isFriend := true }) := by
  simp only [resolveRecipient, hal, hg]

/-- Claim C3, counterexample: alice adds the alias `123` (accepted, because
`isValidFriendAlias` always returns `true`, and in fact also matching the
intended alias pattern) for the raw address `demoAddrB`; resolving `123` as
alice immediately afterwards returns `null` instead of a `ResolvedRecipient`
with `displayName "123"`, because `parseRecipient` classifies the all-digit
string as a user id, and no user has Telegram id 123. -/
theorem resolve_after_add_counterexample :
    handleAddFriend demoDir 1 ["123", demoAddrB] = .added demoDirDigitAlias ∧
    resolveRecipient demoDirDigitAlias 9 "123" (some 1) = some none :=
  ⟨by decide, by decide⟩

/-- Claim C3, amended: for every user, alias and target, where the alias is
classified by the identifier parser as an alias (in particular it is not an
all-digit string, not `@`-prefixed and not 42 characters of `0x…`),
immediately after `add` succeeds and with no intervening mutation,
resolution of the alias by the owner yields: for a raw-address target, the
stored address returned as-is (for every directory, hence with no
registered-user lookup influencing the result) with `displayName` equal to
the alias and the friend flag set; for a username or user-id target whose
one-step inner resolution succeeds with `r`, the result is `r`'s address
with `displayName` overlaid by the alias and the friend flag set.
(`huniq` says no other profile shares the owner's Auth0 `user_id`.) -/
theorem resolve_after_addFriend (d d' : Directory) (uId : Nat) (user : User) (al tIn : String)
    (hu : getUserByTelegramId d uId = some user)
    (huniq : ∀ v ∈ d.users, v.user_id = user.user_id → v = user)
    (hal : parseRecipient al = .ok (.aliasName al))
    (hadd : handleAddFriend d uId [al, tIn] = .added d') :
    (∀ a, parseRecipient tIn = .ok (.address a) →
      resolveRecipient d' 2 al (some uId) =
        some (some { type := "alias", address := a, displayName := al, isFriend := true })) ∧
    (∀ v r, parseRecipient tIn = .ok (.username v) →
      resolveRecipient d' 1 ("@" ++ v) (some uId) = some (some r) →
      resolveRecipient d' 2 al (some uId) =
        some (some { r with displayName := al, isFriend := true })) ∧
    (∀ n r, parseRecipient tIn = .ok (.userId n) →
      resolveRecipient d' 1 (natToString n) (some uId) = some (some r) →
      resolveRecipient d' 2 al (some uId) =
        some (some { r with displayName := al, isFriend := true })) := by
  simp only [handleAddFriend, List.length_cons, List.length_nil, isValidFriendAlias, hu,
    not_true, if_false, Nat.lt_irrefl, Nat.reduceAdd] at hadd
  refine ⟨?_, ?_, ?_⟩
  · intro a hp
    have hadd' := hadd
    rw [hp] at hadd'
    cases hf : user.user_metadata.friends.find? (fun p => p.1 == al) with
    | some p => rw [hf] at hadd'; cases hadd'
    | none =>
      rw [hf] at hadd'
      have hd' : directorySetFriends d user.user_id
          (user.user_metadata.friends ++ [(al, parsedToFriendData (.address a))]) = d' := by
        injection hadd'
      subst hd'
      have hu' := getUserByTelegramId_setFriends d uId user
        (user.user_metadata.friends ++ [(al, parsedToFriendData (.address a))]) hu huniq
      have hg : getFriendByAlias (directorySetFriends d user.user_id
          (user.user_metadata.friends ++ [(al, parsedToFriendData (.address a))])) uId al =
          some ⟨"address", .str a⟩ := by
        unfold getFriendByAlias
        rw [hu']
        simp [List.find?_append, hf, parsedToFriendData]
      rw [resolveRecipient_alias_step _ 1 al al uId _ hal hg]
      simp [JsValue.toStr]
  · intro v r hp hrec
    have hadd' := hadd
    rw [hp] at hadd'
    cases hf : user.user_metadata.friends.find? (fun p => p.1 == al) with
    | some p => rw [hf] at hadd'; cases hadd'
    | none =>
      rw [hf] at hadd'
      have hd' : directorySetFriends d user.user_id
          (user.user_metadata.friends ++ [(al, parsedToFriendData (.username v))]) = d' := by
        injection hadd'
      subst hd'
      have hu' := getUserByTelegramId_setFriends d uId user
        (user.user_metadata.friends ++ [(al, parsedToFriendData (.username v))]) hu huniq
      have hg : getFriendByAlias (directorySetFriends d user.user_id
          (user.user_metadata.friends ++ [(al, parsedToFriendData (.username v))])) uId al =
          some ⟨"username", .str v⟩ := by
        unfold getFriendByAlias
        rw [hu']
        simp [List.find?_append, hf, parsedToFriendData]
      rw [resolveRecipient_alias_step _ 1 al al uId _ hal hg]
      dsimp only [JsValue.toStr]
      rw [if_neg (show ¬ (("username" : String) = "address") from by decide),
        if_pos (rfl : ("username" : String) = "username"), hrec]
  · intro n r hp hrec
    have hadd' := hadd
    rw [hp] at hadd'
    cases hf : user.user_metadata.friends.find? (fun p => p.1 == al) with
    | some p => rw [hf] at hadd'; cases hadd'
    | none =>
      rw [hf] at hadd'
      have hd' : directorySetFriends d user.user_id
          (user.user_metadata.friends ++ [(al, parsedToFriendData (.userId n))]) = d' := by
        injection hadd'
      subst hd'
      have hu' := getUserByTelegramId_setFriends d uId user
        (user.user_metadata.friends ++ [(al, parsedToFriendData (.userId n))]) hu huniq
      have hg : getFriendByAlias (directorySetFriends d user.user_id
          (user.user_metadata.friends ++ [(al, parsedToFriendData (.userId n))])) uId al =
          some ⟨"userId", .num n⟩ := by
        unfold getFriendByAlias
        rw [hu']
        simp [List.find?_append, hf, parsedToFriendData]
      rw [resolveRecipient_alias_step _ 1 al al uId _ hal hg]
      dsimp only [JsValue.toStr]
      rw [if_neg (show ¬ (("userId" : String) = "address") from by decide),
        if_neg (show ¬ (("userId" : String) = "username") from by decide),
        if_pos (rfl : ("userId" : String) = "userId"), hrec]

/-- Witness for `resolve_after_addFriend`: alice adds `bb → demoAddrB` and
`resolve("bb", alice)` returns the stored address with `displayName "bb"`. -/
theorem resolve_after_addFriend_witness :
    handleAddFriend demoDir 1 ["bb", demoAddrB] = .added demoDirAliasBB ∧
    resolveRecipient demoDirAliasBB 2 "bb" (some 1) =
      some (some { type := "alias", address := demoAddrB,
                   displayName := "bb", isFriend := true }) := by
  refine ⟨by decide, ?_⟩
  exact (resolve_after_addFriend demoDir demoDirAliasBB 1 demoAlice "bb" demoAddrB
    (by decide) (by decide) (by decide) (by decide)).1 demoAddrB (by decide)

/-- Dropping a prefix cannot remove a final element the predicate rejects. -/
theorem dropWhile_append_singleton (p : Char → Bool) (l : List Char) (c : Char)
    (hc : p c = false) :
    ∃ m, List.dropWhile p (l ++ [c]) = m ++ [c] := by
  induction l with
  | nil => exact ⟨[], by simp [List.dropWhile, hc]⟩
  | cons a l ih =>
    by_cases ha : p a = true
    · obtain ⟨m, hm⟩ := ih
      exact ⟨m, by simp only [List.cons_append, List.dropWhile_cons_of_pos ha, hm]⟩
    · exact ⟨a :: l, by simp only [List.cons_append, List.dropWhile_cons_of_neg ha]⟩

/-- Trimming a string that starts with `@` leaves `@` as the first character. -/
theorem jsTrim_at_head (v : String) : ∃ l, (jsTrim ("@" ++ v)).data = '@' :: l := by
  have hdata : ("@" ++ v).data = '@' :: v.data := by
    rw [String.data_append]
    rfl
  unfold jsTrim
  rw [hdata, List.dropWhile_cons_of_neg (by decide), List.reverse_cons]
  obtain ⟨m, hm⟩ := dropWhile_append_singleton isJsWhitespace v.data.reverse '@' (by decide)
  rw [hm, List.reverse_append]
  exact ⟨m.reverse, rfl⟩

/-- Decimal digits are not whitespace. -/
theorem isJsWhitespace_of_isDigit (c : Char) (h : c.isDigit = true) :
    isJsWhitespace c = false := by
  by_contra hw
  have hw' : isJsWhitespace c = true := by
    revert hw
    cases isJsWhitespace c <;> simp
  simp only [isJsWhitespace, Bool.or_eq_true, decide_eq_true_eq] at hw'
  rcases hw' with ((h1 | h1) | h1) | h1 <;> subst h1 <;> exact absurd h (by decide)

/-- `dropWhile` is the identity on a list whose elements all fail the predicate. -/
theorem dropWhile_eq_self_of_head (p : Char → Bool) (l : List Char)
    (h : ∀ c ∈ l, p c = false) : List.dropWhile p l = l := by
  cases l with
  | nil => rfl
  | cons a r => exact List.dropWhile_cons_of_neg (by rw [h a (List.mem_cons_self a r)]; simp)

/-- Trimming is the identity on whitespace-free strings. -/
theorem jsTrim_of_no_ws (s : String) (h : ∀ c ∈ s.data, isJsWhitespace c = false) :
    jsTrim s = s := by
  unfold jsTrim
  rw [dropWhile_eq_self_of_head _ _ h,
      dropWhile_eq_self_of_head _ _ (fun c hc => h c (List.mem_reverse.mp hc)),
      List.reverse_reverse]

/-- Every character `natDigitsAux` produces is a decimal digit. -/
theorem natDigitsAux_all_digits (fuel : Nat) : ∀ n, ∀ c ∈ natDigitsAux fuel n, c.isDigit = true := by
  induction fuel with
  | zero => intro n c hc; cases hc
  | succ m ih =>
    intro n c hc
    rw [natDigitsAux] at hc
    by_cases hn : n < 10
    · rw [if_pos hn] at hc
      rcases List.mem_singleton.mp hc with rfl
      interval_cases n <;> decide
    · rw [if_neg hn] at hc
      rcases List.mem_append.mp hc with hm | hm
      · exact ih (n / 10) c hm
      · rcases List.mem_singleton.mp hm with rfl
        have h10 : n % 10 < 10 := Nat.mod_lt _ (by omega)
        set k := n % 10 with hk
        interval_cases k <;> decide

/-- `natDigitsAux` with positive fuel is never empty. -/
theorem natDigitsAux_ne_nil (fuel n : Nat) : natDigitsAux (fuel + 1) n ≠ [] := by
  rw [natDigitsAux]
  by_cases hn : n < 10
  · rw [if_pos hn]; simp
  · rw [if_neg hn]; simp

/-- The decimal rendering of a natural number never parses as an alias
(`parseRecipient` classifies all-digit strings as user ids or rejects them). -/
theorem parse_natToString_not_alias (n : Nat) (a : String) :
    parseRecipient (natToString n) ≠ .ok (.aliasName a) := by
  have hall : ∀ c ∈ (natToString n).data, c.isDigit = true :=
    natDigitsAux_all_digits (n + 1) n
  have hne : ¬ (natToString n = "") := by
    intro h
    have := natDigitsAux_ne_nil n n
    rw [show natDigitsAux (n + 1) n = (natToString n).data from rfl, h] at this
    exact this rfl
  have htrim : jsTrim (natToString n) = natToString n :=
    jsTrim_of_no_ws _ (fun c hc => isJsWhitespace_of_isDigit c (hall c hc))
  obtain ⟨c0, rest, hdata⟩ : ∃ c0 rest, (natToString n).data = c0 :: rest := by
    cases hd : (natToString n).data with
    | nil =>
      exact absurd hd (by rw [show (natToString n).data = natDigitsAux (n + 1) n from rfl]
                          exact natDigitsAux_ne_nil n n)
    | cons c0 rest => exact ⟨c0, rest, rfl⟩
  have hc0 : c0.isDigit = true := hall c0 (by rw [hdata]; exact List.mem_cons_self c0 rest)
  have h0x : jsStartsWith (natToString n) "0x" = false := by
    unfold jsStartsWith
    rw [hdata]
    cases rest with
    | nil =>
      simp [List.isPrefixOf]
    | cons c1 r1 =>
      have hc1 : c1.isDigit = true := hall c1 (by rw [hdata]; simp)
      have hxc : ('x' == c1) = false := by
        cases hx : ('x' == c1)
        · rfl
        · rw [← eq_of_beq hx] at hc1
          exact absurd hc1 (by decide)
      simp [List.isPrefixOf, hxc]
  have hat : jsStartsWith (natToString n) "@" = false := by
    unfold jsStartsWith
    rw [hdata]
    have hac : ('@' == c0) = false := by
      cases hx : ('@' == c0)
      · rfl
      · rw [← eq_of_beq hx] at hc0
        exact absurd hc0 (by decide)
    simp [List.isPrefixOf, hac]
  have hdig : (natToString n).data.all Char.isDigit = true := List.all_eq_true.mpr hall
  have hemp : (natToString n).data.isEmpty = false := by rw [hdata]; rfl
  intro h
  simp only [parseRecipient, hne, htrim, h0x, hat, hdig, hemp, if_false, Bool.false_and,
    decide_False, Bool.false_eq_true, Bool.and_true, not_false_eq_true, decide_True,
    Bool.true_and, if_true] at h
  split at h <;> simp at h

/-- An `@`-prefixed string never parses as an alias (the username rule
claims it first). -/
theorem parse_at_not_alias (v : String) (a : String) :
    parseRecipient ("@" ++ v) ≠ .ok (.aliasName a) := by
  have hne : ¬ ("@" ++ v = "") := by
    intro h
    have h2 : ("@" ++ v).length = 0 := by rw [h]; rfl
    rw [String.length_append] at h2
    have h1 : ("@" : String).length = 1 := rfl
    omega
  obtain ⟨l, hl⟩ := jsTrim_at_head v
  have h0x : jsStartsWith (jsTrim ("@" ++ v)) "0x" = false := by
    unfold jsStartsWith
    rw [hl]
    rfl
  have hat : jsStartsWith (jsTrim ("@" ++ v)) "@" = true := by
    unfold jsStartsWith
    rw [hl]
    cases l <;> rfl
  intro h
  simp only [parseRecipient, hne, h0x, hat, if_false, Bool.false_and, if_true,
    isValidTelegramUsername] at h
  split at h <;> cases h

/-- On inputs that do not parse as an alias, `resolveRecipient` makes no
recursive call: one unit of fuel suffices and the result is never the
out-of-fuel marker. -/
theorem resolveRecipient_fuel_nonalias (d : Directory) (r : String) (sender : Option Nat)
    (h : ∀ a, parseRecipient r ≠ .ok (.aliasName a)) (fuel : Nat) :
    resolveRecipient d (fuel + 1) r sender = resolveRecipient d 1 r sender ∧
    resolveRecipient d 1 r sender ≠ none := by
  cases hp : parseRecipient r with
  | error e =>
    constructor
    · simp [resolveRecipient, hp]
    · simp [resolveRecipient, hp]
  | ok parsed =>
    cases parsed with
    | aliasName a => exact absurd hp (h a)
    | address v1 =>
      constructor
      · simp only [resolveRecipient, hp]
      · simp only [resolveRecipient, hp]
        repeat' split
        all_goals simp
    | username v1 =>
      constructor
      · simp only [resolveRecipient, hp]
      · simp only [resolveRecipient, hp]
        repeat' split
        all_goals simp
    | userId v1 =>
      constructor
      · simp only [resolveRecipient, hp]
      · simp only [resolveRecipient, hp]
        repeat' split
        all_goals simp

/-- A friend entry returned by `getFriendByAlias` is stored in some
profile's friends map. -/
theorem getFriendByAlias_mem (d : Directory) (sid : Nat) (al : String) (fd : FriendData)
    (hg : getFriendByAlias d sid al = some fd) :
    ∃ u ∈ d.users, ∃ p ∈ u.user_metadata.friends, p.2 = fd := by
  unfold getFriendByAlias at hg
  cases hu : getUserByTelegramId d sid with
  | none => rw [hu] at hg; cases hg
  | some u =>
    rw [hu] at hg
    obtain ⟨p, hp, hpv⟩ := Option.map_eq_some'.mp hg
    exact ⟨u, List.mem_of_find?_eq_some hu, p, List.mem_of_find?_eq_some hp, hpv⟩


/-- Claim C6, counterexample: `handleAddFriend` does not reject a target
that itself parses as an alias — `/addfriend bff bob5` stores the entry
`bff → { type: 'alias', value: 'bob5' }` in alice's friends map. -/
theorem addFriend_alias_target_counterexample :
    handleAddFriend demoDir 1 ["bff", "bob5"] = .added demoDirAliasKindTarget ∧
    getFriendByAlias demoDirAliasKindTarget 1 "bff" = some ⟨"alias", .str "bob5"⟩ :=
  ⟨by decide, by decide⟩

/-- Claim C6, amended: `handleAddFriend` stores a target of whatever kind
`parseRecipient` assigns, including `alias` (see the counterexample), so
bounded recursion is a property of the state, not of `add`: for every
directory in which all stored friend targets have kind `address`,
`username`, or `userId` (with user-id targets stored as numbers, as `add`
stores them), recipient resolution performs at most one recursive step
beyond the alias — fuel 2 yields the same result as any larger fuel and
never runs out — whereas in the reachable state whose alias `a` targets the
alias string `a` itself, resolution diverges: every fuel bound is
exhausted, modelling infinite recursion in the JS code. -/
theorem resolveRecipient_depth_bounded (d : Directory)
    (H : ∀ u ∈ d.users, ∀ p ∈ u.user_metadata.friends,
      p.2.type = "address" ∨ p.2.type = "username" ∨
      (p.2.type = "userId" ∧ ∃ n, p.2.value = JsValue.num n)) :
    (∀ r sender fuel, 2 ≤ fuel →
      resolveRecipient d fuel r sender = resolveRecipient d 2 r sender ∧
      resolveRecipient d 2 r sender ≠ none) ∧
    (∀ fuel, resolveRecipient selfAliasDir fuel "a" (some 1) = none) := by
  constructor
  · intro r sender fuel hfuel
    obtain ⟨k, rfl⟩ : ∃ k, fuel = k + 2 := ⟨fuel - 2, by omega⟩
    by_cases hn : ∀ a, parseRecipient r ≠ .ok (.aliasName a)
    · have h1 := resolveRecipient_fuel_nonalias d r sender hn (k + 1)
      have h2 := resolveRecipient_fuel_nonalias d r sender hn 1
      have h2' : resolveRecipient d 2 r sender = resolveRecipient d 1 r sender := h2.1
      exact ⟨h1.1.trans h2'.symm, by rw [h2']; exact h2.2⟩
    · push_neg at hn
      obtain ⟨a, hp⟩ := hn
      cases sender with
      | none =>
        constructor
        · simp [resolveRecipient, hp]
        · simp [resolveRecipient, hp]
      | some sid =>
        cases hg : getFriendByAlias d sid a with
        | none =>
          constructor
          · simp [resolveRecipient, hp, hg]
          · simp [resolveRecipient, hp, hg]
        | some fd =>
          obtain ⟨u, hu, p, hpmem, hpfd⟩ := getFriendByAlias_mem d sid a fd hg
          have hfd := H u hu p hpmem
          rw [hpfd] at hfd
          rcases hfd with htype | htype | ⟨htype, n, hval⟩
          · have hS1 : resolveRecipient d (k + 2) r (some sid) =
                some (some { type := "alias", address := fd.value.toStr,
                             displayName := a, isFriend := true }) := by
              have hstep := resolveRecipient_alias_step d (k + 1) r a sid fd hp hg
              rwa [if_pos htype] at hstep
            have hS2 : resolveRecipient d 2 r (some sid) =
                some (some { type := "alias", address := fd.value.toStr,
                             displayName := a, isFriend := true }) := by
              have hstep := resolveRecipient_alias_step d 1 r a sid fd hp hg
              rwa [if_pos htype] at hstep
            exact ⟨hS1.trans hS2.symm, by rw [hS2]; simp⟩
          · have hinner : ∀ a', parseRecipient ("@" ++ fd.value.toStr) ≠ .ok (.aliasName a') :=
              fun a' => parse_at_not_alias _ a'
            have hi1 := resolveRecipient_fuel_nonalias d ("@" ++ fd.value.toStr) (some sid) hinner k
            have hi0 := resolveRecipient_fuel_nonalias d ("@" ++ fd.value.toStr) (some sid) hinner 0
            have hA : resolveRecipient d (k + 2) r (some sid) =
                match resolveRecipient d (k + 1) ("@" ++ fd.value.toStr) (some sid) with
                | none => none
                | some none => some none
                | some (some resolved) =>
                  some (some { resolved with displayName := a, isFriend := true }) := by
              have hstep := resolveRecipient_alias_step d (k + 1) r a sid fd hp hg
              rwa [if_neg (show ¬ (fd.type = "address") from by rw [htype]; decide),
                   if_pos htype] at hstep
            have hB : resolveRecipient d 2 r (some sid) =
                match resolveRecipient d 1 ("@" ++ fd.value.toStr) (some sid) with
                | none => none
                | some none => some none
                | some (some resolved) =>
                  some (some { resolved with displayName := a, isFriend := true }) := by
              have hstep := resolveRecipient_alias_step d 1 r a sid fd hp hg
              rwa [if_neg (show ¬ (fd.type = "address") from by rw [htype]; decide),
                   if_pos htype] at hstep
            have hi1' : resolveRecipient d (k + 1) ("@" ++ fd.value.toStr) (some sid) =
                resolveRecipient d 1 ("@" ++ fd.value.toStr) (some sid) := hi1.1
            constructor
            · rw [hA, hB, hi1']
            · rw [hB]
              cases hres : resolveRecipient d 1 ("@" ++ fd.value.toStr) (some sid) with
              | none => exact absurd hres hi0.2
              | some o => cases o <;> simp
          · have hts : fd.value.toStr = natToString n := by rw [hval]; rfl
            have hinner : ∀ a', parseRecipient (fd.value.toStr) ≠ .ok (.aliasName a') := by
              rw [hts]
              exact fun a' => parse_natToString_not_alias n a'
            have hi1 := resolveRecipient_fuel_nonalias d (fd.value.toStr) (some sid) hinner k
            have hi0 := resolveRecipient_fuel_nonalias d (fd.value.toStr) (some sid) hinner 0
            have hA : resolveRecipient d (k + 2) r (some sid) =
                match resolveRecipient d (k + 1) (fd.value.toStr) (some sid) with
                | none => none
                | some none => some none
                | some (some resolved) =>
                  some (some { resolved with displayName := a, isFriend := true }) := by
              have hstep := resolveRecipient_alias_step d (k + 1) r a sid fd hp hg
              rwa [if_neg (show ¬ (fd.type = "address") from by rw [htype]; decide),
                   if_neg (show ¬ (fd.type = "username") from by rw [htype]; decide),
                   if_pos htype] at hstep
            have hB : resolveRecipient d 2 r (some sid) =
                match resolveRecipient d 1 (fd.value.toStr) (some sid) with
                | none => none
                | some none => some none
                | some (some resolved) =>
                  some (some { resolved with displayName := a, isFriend := true }) := by
              have hstep := resolveRecipient_alias_step d 1 r a sid fd hp hg
              rwa [if_neg (show ¬ (fd.type = "address") from by rw [htype]; decide),
                   if_neg (show ¬ (fd.type = "username") from by rw [htype]; decide),
                   if_pos htype] at hstep
            have hi1' : resolveRecipient d (k + 1) (fd.value.toStr) (some sid) =
                resolveRecipient d 1 (fd.value.toStr) (some sid) := hi1.1
            constructor
            · rw [hA, hB, hi1']
            · rw [hB]
              cases hres : resolveRecipient d 1 (fd.value.toStr) (some sid) with
              | none => exact absurd hres hi0.2
              | some o => cases o <;> simp
  · intro fuel
    induction fuel with
    | zero => rfl
    | succ m ih =>
      have hstep := resolveRecipient_alias_step selfAliasDir m "a" "a" 1
        ⟨"alias", JsValue.str "a"⟩ (by decide) (by decide)
      rw [hstep]
      dsimp only [JsValue.toStr]
      rw [if_neg (show ¬ (("alias" : String) = "address") from by decide),
          if_neg (show ¬ (("alias" : String) = "username") from by decide),
          if_neg (show ¬ (("alias" : String) = "userId") from by decide), ih]

/-- Witness for `resolveRecipient_depth_bounded`: in `demoDirBobAlias`
(whose only friend target has kind `username`), resolving `bob` with fuel 5
equals fuel 2 and terminates, while the self-referential alias state
diverges at fuel 7. -/
theorem resolveRecipient_depth_bounded_witness :
    resolveRecipient demoDirBobAlias 5 "bob" (some 1) =
      resolveRecipient demoDirBobAlias 2 "bob" (some 1) ∧
    resolveRecipient demoDirBobAlias 2 "bob" (some 1) ≠ none ∧
    resolveRecipient selfAliasDir 7 "a" (some 1) = none := by
  have H : ∀ u ∈ demoDirBobAlias.users, ∀ p ∈ u.user_metadata.friends,
      p.2.type = "address" ∨ p.2.type = "username" ∨
      (p.2.type = "userId" ∧ ∃ n, p.2.value = JsValue.num n) := by
    intro u hu p hp
    simp only [demoDirBobAlias, demoAlice, demoBob, List.mem_cons] at hu
    rcases hu with rfl | rfl | hu
    · have hpe : p = ("bob", ⟨"username", JsValue.str "bob"⟩) := by simpa using hp
      subst hpe
      exact Or.inr (Or.inl rfl)
    · exact absurd hp (by simp)
    · simp at hu
  have h := resolveRecipient_depth_bounded demoDirBobAlias H
  exact ⟨(h.1 "bob" (some 1) 5 (by omega)).1, (h.1 "bob" (some 1) 5 (by omega)).2, h.2 7⟩
